import Mathlib

/-!
Verification of the dynamic shader composition and rendering engine of
`VIB34D_WORKING_CORE_ARCHITECTURE.js` (geometry/projection registries,
shader manager, parameter store with dirty tracking, render-core state
machine and context recovery).

The JavaScript code is shallowly embedded as follows.

* A JavaScript string holding shader source text is modeled as a `JSStr`:
  a list of text segments whose concatenation is the string's content.
  The segmentation of each concrete source is chosen so that every token
  the code ever searches for with `String.prototype.includes` or replaces
  with `String.prototype.replace` (the two injection-point markers, the
  function names `calculateLattice` and `project4Dto3D`) occurs as an
  atomic segment.  Substring search and first-occurrence replacement are
  then segment membership and segment splicing, with the same control
  structure as the JavaScript string operations.
* Short identifier strings (registry keys, program names) are plain
  `String`s; `String.prototype.toLowerCase` on the ASCII names the code
  uses is `jsToLowerCase`.
* JavaScript objects used as dictionaries are association lists
  (`objGet`/`objSet`/`objDelete`); a JavaScript `Set` of uniform names is
  a duplicate-free `List String` grown with `setAdd` (insertion order).
* Numbers are modeled as `ℚ` (the code only stores and compares them;
  `JSON.stringify` equality on stored numbers is value equality).
* WebGL is abstracted as a healthy context: `createShader`, `compileShader`,
  `createProgram` and `linkProgram` succeed and hand out fresh numeric
  handles (`nextHandle`); uniform-location lookup is an explicit
  `String → Option Nat` parameter where a claim depends on it.
  `onError` callback invocations are recorded in an `errors` list.
-/

set_option maxRecDepth 4000

/-- JavaScript string value, as a list of text segments (see module docstring). -/
abbrev JSStr := List String

/-- Model of `String.prototype.includes(pat)` for the patterns the code
searches for, each of which is an atomic segment of the concrete sources. -/
def jsStrIncludes (s : JSStr) (pat : String) : Bool :=
  s.any (fun seg => seg == pat)

/-- Model of `String.prototype.replace(pat, rep)` (first occurrence only,
as in JavaScript with a string pattern): splice `rep` in place of the first
segment equal to `pat`; if no segment matches, the string is returned
unchanged, as in JavaScript. -/
def jsStrReplaceFirst (s : JSStr) (pat : String) (rep : JSStr) : JSStr :=
  match s with
  | [] => []
  | seg :: rest =>
    if seg == pat then rep ++ rest
    else seg :: jsStrReplaceFirst rest pat rep

/-- Model of the ASCII case mapping performed by
`String.prototype.toLowerCase` on one character: the registry names the
code lowercases are plain ASCII. -/
def jsCharToLower (c : Char) : Char :=
  if 65 ≤ c.toNat ∧ c.toNat ≤ 90 then Char.ofNat (c.toNat + 32) else c

/-- Model of `String.prototype.toLowerCase` on the ASCII strategy names. -/
def jsToLowerCase (s : String) : String :=
  String.mk (s.data.map jsCharToLower)

/-- Property read `obj[key]` on a JavaScript object used as a dictionary. -/
def objGet {α : Type} (l : List (String × α)) (key : String) : Option α :=
  match l with
  | [] => none
  | (k, v) :: rest => if k = key then some v else objGet rest key

/-- Property write `obj[key] = value` (overwrites an existing key, else appends). -/
def objSet {α : Type} (l : List (String × α)) (key : String) (value : α) :
    List (String × α) :=
  match l with
  | [] => [(key, value)]
  | (k, v) :: rest =>
    if k = key then (k, value) :: rest else (k, v) :: objSet rest key value

/-- Property removal `delete obj[key]`. -/
def objDelete {α : Type} (l : List (String × α)) (key : String) :
    List (String × α) :=
  match l with
  | [] => []
  | (k, v) :: rest =>
    if k = key then rest else (k, v) :: objDelete rest key

/-- Model of `Set.prototype.add`: append unless already present (JavaScript `Set`
keeps insertion order and ignores re-insertions). -/
def setAdd (l : List String) (x : String) : List String :=
  if x ∈ l then l else l ++ [x]

/-!
Shader source texts, transcribed from the template literals in
`VIB34D_WORKING_CORE_ARCHITECTURE.js`.  Braces are written with the
escapes \x7b and \x7d.  In `perspectiveShaderCode` and
`stereographicShaderCode` the interpolations of the constructor
parameters are instantiated at the default constructor arguments used by
`_initProjections` (`viewDistance = 2.5`, `projectionPoleW = -1.5`), so
the texts are exactly what `getShaderCode()` returns on the registered
instances.
-/

def hypercubeShaderCode : JSStr :=
  ["
            // Uniforms used: u_dimension, u_time, u_morphFactor, u_gridDensity, u_lineThickness
            // u_universeModifier, u_audioBass, u_audioMid, u_audioHigh, u_rotationSpeed
            float ",
   "calculateLattice",
   "(vec3 p) \x7b
                float dynamicGridDensity = max(0.1, u_gridDensity * (1.0 + u_audioBass * 0.7));
                float dynamicLineThickness = max(0.002, u_lineThickness * (1.0 - u_audioMid * 0.6));

                vec3 p_grid3D = fract(p * dynamicGridDensity * 0.5 + u_time * 0.01);
                vec3 dist3D = abs(p_grid3D - 0.5);
                float box3D = max(dist3D.x, max(dist3D.y, dist3D.z));
                float lattice3D = smoothstep(0.5, 0.5 - dynamicLineThickness, box3D);

                float finalLattice = lattice3D;
                float dim_factor = smoothstep(3.0, 4.5, u_dimension);

                if (dim_factor > 0.01) \x7b
                    float w_coord = sin(p.x*1.4 - p.y*0.7 + p.z*1.5 + u_time * 0.25)
                                  * cos(length(p) * 1.1 - u_time * 0.35 + u_audioMid * 2.5)
                                  * dim_factor * (0.4 + u_morphFactor * 0.6 + u_audioHigh * 0.6);

                    vec4 p4d = vec4(p, w_coord);
                    float baseSpeed = u_rotationSpeed * 1.0;
                    float time_rot1 = u_time * 0.33 * baseSpeed + u_audioHigh * 0.25 + u_morphFactor * 0.45;
                    float time_rot2 = u_time * 0.28 * baseSpeed - u_audioMid * 0.28;
                    float time_rot3 = u_time * 0.25 * baseSpeed + u_audioBass * 0.35;
                    p4d = rotXW(time_rot1) * rotYZ(time_rot2 * 1.1) * rotZW(time_rot3 * 0.9) * p4d;
                    p4d = rotYW(u_time * -0.22 * baseSpeed + u_morphFactor * 0.3) * p4d;

                    vec3 projectedP = project4Dto3D(p4d);
                    vec3 p_grid4D_proj = fract(projectedP * dynamicGridDensity * 0.5 + u_time * 0.015);
                    vec3 dist4D_proj = abs(p_grid4D_proj - 0.5);
                    float box4D_proj = max(dist4D_proj.x, max(dist4D_proj.y, dist4D_proj.z));
                    float lattice4D_proj = smoothstep(0.5, 0.5 - dynamicLineThickness, box4D_proj);
                    finalLattice = mix(lattice3D, lattice4D_proj, smoothstep(0.0, 1.0, u_morphFactor));
                \x7d
                return pow(finalLattice, 1.0 / max(0.1, u_universeModifier));
            \x7d
        "]

def hypersphereShaderCode : JSStr :=
  ["
            // Uniforms used: u_dimension, u_time, u_morphFactor, u_gridDensity, u_shellWidth
            // u_universeModifier, u_audioBass, u_audioMid, u_audioHigh, u_rotationSpeed
            float ",
   "calculateLattice",
   "(vec3 p) \x7b
                float radius3D = length(p);
                float densityFactor = max(0.1, u_gridDensity * 0.7 * (1.0 + u_audioBass * 0.5));
                float dynamicShellWidth = max(0.005, u_shellWidth * (1.0 + u_audioMid * 1.5));
                float phase = radius3D * densityFactor * 6.28318 - u_time * u_rotationSpeed * 0.8 + u_audioHigh * 3.0;
                float shells3D = 0.5 + 0.5 * sin(phase);
                shells3D = smoothstep(1.0 - dynamicShellWidth, 1.0, shells3D);

                float finalLattice = shells3D;
                float dim_factor = smoothstep(3.0, 4.5, u_dimension);

                if (dim_factor > 0.01) \x7b
                    float w_coord = cos(radius3D * 2.5 - u_time * 0.55)
                                  * sin(p.x*1.0 + p.y*1.3 - p.z*0.7 + u_time*0.2)
                                  * dim_factor * (0.5 + u_morphFactor * 0.5 + u_audioMid * 0.5);

                    vec4 p4d = vec4(p, w_coord);
                    float baseSpeed = u_rotationSpeed * 0.85;
                    float time_rot1 = u_time * 0.38 * baseSpeed + u_audioHigh * 0.2;
                    float time_rot2 = u_time * 0.31 * baseSpeed + u_morphFactor * 0.6;
                    float time_rot3 = u_time * -0.24 * baseSpeed + u_audioBass * 0.25;
                    p4d = rotXW(time_rot1 * 1.05) * rotYZ(time_rot2) * rotYW(time_rot3 * 0.95) * p4d;

                    vec3 projectedP = project4Dto3D(p4d);
                    float radius4D_proj = length(projectedP);
                    float phase4D = radius4D_proj * densityFactor * 6.28318 - u_time * u_rotationSpeed * 0.8 + u_audioHigh * 3.0;
                    float shells4D_proj = 0.5 + 0.5 * sin(phase4D);
                    shells4D_proj = smoothstep(1.0 - dynamicShellWidth, 1.0, shells4D_proj);
                    finalLattice = mix(shells3D, shells4D_proj, smoothstep(0.0, 1.0, u_morphFactor));
                \x7d
                return pow(max(0.0, finalLattice), max(0.1, u_universeModifier));
            \x7d
        "]

def hypertetrahedronShaderCode : JSStr :=
  ["
            // Uniforms used: u_dimension, u_time, u_morphFactor, u_gridDensity, u_tetraThickness
            // u_universeModifier, u_audioBass, u_audioMid, u_audioHigh, u_rotationSpeed
            float ",
   "calculateLattice",
   "(vec3 p) \x7b
                float density = max(0.1, u_gridDensity * 0.65 * (1.0 + u_audioBass * 0.4));
                float dynamicThickness = max(0.003, u_tetraThickness * (1.0 - u_audioMid * 0.7));

                vec3 c1=normalize(vec3(1,1,1)), c2=normalize(vec3(-1,-1,1)), c3=normalize(vec3(-1,1,-1)), c4=normalize(vec3(1,-1,-1));
                vec3 p_mod3D = fract(p * density * 0.5 + 0.5 + u_time * 0.005) - 0.5;
                float d1=dot(p_mod3D, c1), d2=dot(p_mod3D, c2), d3=dot(p_mod3D, c3), d4=dot(p_mod3D, c4);
                float minDistToPlane3D = min(min(abs(d1), abs(d2)), min(abs(d3), abs(d4)));
                float lattice3D = 1.0 - smoothstep(0.0, dynamicThickness, minDistToPlane3D);

                float finalLattice = lattice3D;
                float dim_factor = smoothstep(3.0, 4.5, u_dimension);

                if (dim_factor > 0.01) \x7b
                    float w_coord = cos(p.x*1.8 - p.y*1.5 + p.z*1.2 + u_time*0.24) * sin(length(p)*1.4 + u_time*0.18 - u_audioMid*2.0) * dim_factor * (0.45 + u_morphFactor*0.55 + u_audioHigh*0.4);
                    vec4 p4d = vec4(p, w_coord);
                    float baseSpeed = u_rotationSpeed * 1.15;
                    float time_rot1 = u_time*0.28*baseSpeed + u_audioHigh*0.25; 
                    float time_rot2 = u_time*0.36*baseSpeed - u_audioBass*0.2 + u_morphFactor*0.4; 
                    float time_rot3 = u_time*0.32*baseSpeed + u_audioMid*0.15;
                    p4d = rotXW(time_rot1*0.95) * rotYW(time_rot2*1.05) * rotZW(time_rot3) * p4d;
                    vec3 projectedP = project4Dto3D(p4d);

                    vec3 p_mod4D_proj = fract(projectedP * density * 0.5 + 0.5 + u_time * 0.008) - 0.5;
                    float dp1=dot(p_mod4D_proj,c1), dp2=dot(p_mod4D_proj,c2), dp3=dot(p_mod4D_proj,c3), dp4=dot(p_mod4D_proj,c4);
                    float minDistToPlane4D = min(min(abs(dp1), abs(dp2)), min(abs(dp3), abs(dp4)));
                    float lattice4D_proj = 1.0 - smoothstep(0.0, dynamicThickness, minDistToPlane4D);
                    finalLattice = mix(lattice3D, lattice4D_proj, smoothstep(0.0, 1.0, u_morphFactor));
                \x7d
                return pow(max(0.0, finalLattice), max(0.1, u_universeModifier));
            \x7d
        "]

def torusShaderCode : JSStr :=
  ["
            float ",
   "calculateLattice",
   "(vec3 p) \x7b
                float density = max(0.1, u_gridDensity * 0.8 * (1.0 + u_audioBass * 0.6));
                vec3 p_mod = fract(p * density) - 0.5;
                float r1 = sqrt(p_mod.x*p_mod.x + p_mod.y*p_mod.y);
                float r2 = sqrt((r1 - 0.3)*(r1 - 0.3) + p_mod.z*p_mod.z);
                float torus = 1.0 - smoothstep(0.0, 0.1, r2);
                return pow(max(0.0, torus), max(0.1, u_universeModifier));
            \x7d
        "]

def kleinShaderCode : JSStr :=
  ["
            float ",
   "calculateLattice",
   "(vec3 p) \x7b
                float density = max(0.1, u_gridDensity * 0.9 * (1.0 + u_audioBass * 0.5));
                vec3 q = fract(p * density);
                float u = q.x * 2.0 * 3.14159;
                float v = q.y * 2.0 * 3.14159;
                float x = cos(u) * (3.0 + cos(u/2.0) * sin(v) - sin(u/2.0) * sin(2.0*v));
                float klein = length(vec2(x, q.z)) - 0.1;
                return 1.0 - smoothstep(0.0, 0.05, abs(klein));
            \x7d
        "]

def fractalShaderCode : JSStr :=
  ["
            float ",
   "calculateLattice",
   "(vec3 p) \x7b
                vec3 q = p * u_gridDensity;
                float scale = 1.0;
                float fractal = 0.0;
                for(int i = 0; i < 4; i++) \x7b
                    q = fract(q) - 0.5;
                    fractal += abs(length(q)) / scale;
                    scale *= 2.0;
                    q *= 2.0;
                \x7d
                return 1.0 - smoothstep(0.0, 1.0, fractal);
            \x7d
        "]

def waveShaderCode : JSStr :=
  ["
            float ",
   "calculateLattice",
   "(vec3 p) \x7b
                vec3 q = p * u_gridDensity;
                float wave = sin(q.x * 2.0) * sin(q.y * 2.0) * sin(q.z * 2.0 + u_time);
                return smoothstep(-0.5, 0.5, wave);
            \x7d
        "]

def crystalShaderCode : JSStr :=
  ["
            float ",
   "calculateLattice",
   "(vec3 p) \x7b
                vec3 q = fract(p * u_gridDensity) - 0.5;
                float d = max(max(abs(q.x), abs(q.y)), abs(q.z));
                return 1.0 - smoothstep(0.3, 0.5, d);
            \x7d
        "]

def perspectiveShaderCode : JSStr :=
  ["vec3 ",
   "project4Dto3D",
   "(vec4 p) \x7b 
            float baseDistance = 2.50; 
            float dynamicDistance = max(0.2, baseDistance * (1.0 + u_morphFactor * 0.4 - u_audioMid * 0.35)); 
            float denominator = dynamicDistance + p.w; 
            float w_factor = dynamicDistance / max(0.1, denominator); 
            return p.xyz * w_factor; 
        \x7d"]

def orthographicShaderCode : JSStr :=
  ["vec3 ",
   "project4Dto3D",
   "(vec4 p) \x7b 
            vec3 orthoP = p.xyz; 
            float basePerspectiveDistance = 2.5; 
            float dynamicPerspectiveDistance = max(0.2, basePerspectiveDistance * (1.0 - u_audioMid * 0.4)); 
            float perspDenominator = dynamicPerspectiveDistance + p.w; 
            float persp_w_factor = dynamicPerspectiveDistance / max(0.1, perspDenominator); 
            vec3 perspP = p.xyz * persp_w_factor; 
            float morphT = smoothstep(0.0, 1.0, u_morphFactor); 
            return mix(orthoP, perspP, morphT); 
        \x7d"]

def stereographicShaderCode : JSStr :=
  ["vec3 ",
   "project4Dto3D",
   "(vec4 p) \x7b 
            float basePoleW = -1.50; 
            float dynamicPoleW = sign(basePoleW) * max(0.1, abs(basePoleW + u_audioHigh * 0.4 * sign(basePoleW))); 
            float denominator = p.w - dynamicPoleW; 
            vec3 projectedP; 
            float epsilon = 0.001; 
            if (abs(denominator) < epsilon) \x7b 
                projectedP = normalize(p.xyz + vec3(epsilon)) * 1000.0; 
            \x7d else \x7b 
                float scale = (-dynamicPoleW) / denominator; 
                projectedP = p.xyz * scale; 
            \x7d 
            float morphT = smoothstep(0.0, 1.0, u_morphFactor * 0.8); 
            vec3 orthoP = p.xyz; 
            return mix(projectedP, orthoP, morphT); 
        \x7d"]

def baseVertexShaderSource : JSStr :=
  ["attribute vec2 a_position; varying vec2 v_uv; void main() \x7b v_uv = a_position * 0.5 + 0.5; gl_Position = vec4(a_position, 0.0, 1.0); \x7d"]

def baseFragmentShaderSource : JSStr :=
  ["
            precision highp float;
            uniform vec2 u_resolution; uniform float u_time;
            uniform float u_dimension; uniform float u_morphFactor; uniform float u_rotationSpeed;
            uniform float u_universeModifier; uniform float u_patternIntensity; uniform float u_gridDensity;
            uniform float u_lineThickness; uniform float u_shellWidth; uniform float u_tetraThickness;
            uniform float u_audioBass; uniform float u_audioMid; uniform float u_audioHigh;
            uniform float u_glitchIntensity; uniform float u_colorShift;
            uniform vec3 u_primaryColor; uniform vec3 u_secondaryColor; uniform vec3 u_backgroundColor;
            varying vec2 v_uv;
            mat4 rotXW(float a)\x7bfloat c=cos(a),s=sin(a);return mat4(c,0,0,-s, 0,1,0,0, 0,0,1,0, s,0,0,c);\x7d 
            mat4 rotYW(float a)\x7bfloat c=cos(a),s=sin(a);return mat4(1,0,0,0, 0,c,0,-s, 0,0,1,0, 0,s,0,c);\x7d 
            mat4 rotZW(float a)\x7bfloat c=cos(a),s=sin(a);return mat4(1,0,0,0, 0,1,0,0, 0,0,c,-s, 0,0,s,c);\x7d 
            mat4 rotXY(float a)\x7bfloat c=cos(a),s=sin(a);return mat4(c,-s,0,0, s,c,0,0, 0,0,1,0, 0,0,0,1);\x7d 
            mat4 rotYZ(float a)\x7bfloat c=cos(a),s=sin(a);return mat4(1,0,0,0, 0,c,-s,0, 0,s,c,0, 0,0,0,1);\x7d 
            mat4 rotXZ(float a)\x7bfloat c=cos(a),s=sin(a);return mat4(c,0,-s,0, 0,1,0,0, s,0,c,0, 0,0,0,1);\x7d
            vec3 rgb2hsv(vec3 c)\x7bvec4 K=vec4(0.,-1./3.,2./3.,-1.);vec4 p=mix(vec4(c.bg,K.wz),vec4(c.gb,K.xy),step(c.b,c.g));vec4 q=mix(vec4(p.xyw,c.r),vec4(c.r,p.yzx),step(p.x,c.r));float d=q.x-min(q.w,q.y);float e=1e-10;return vec3(abs(q.z+(q.w-q.y)/(6.*d+e)),d/(q.x+e),q.x);\x7d 
            vec3 hsv2rgb(vec3 c)\x7bvec4 K=vec4(1.,2./3.,1./3.,3.);vec3 p=abs(fract(c.xxx+K.xyz)*6.-K.www);return c.z*mix(K.xxx,clamp(p-K.xxx,0.,1.),c.y);\x7d
            ",
   "//__PROJECTION_CODE_INJECTION_POINT__",
   "
            ",
   "//__GEOMETRY_CODE_INJECTION_POINT__",
   "
            void main() \x7b
                vec2 aspect = vec2(u_resolution.x / u_resolution.y, 1.0); 
                vec2 uv = (v_uv * 2.0 - 1.0) * aspect;
                vec3 rayOrigin = vec3(0.0, 0.0, -2.5); 
                vec3 rayDirection = normalize(vec3(uv, 1.0));
                float camRotY = u_time * 0.05 * u_rotationSpeed + u_audioMid * 0.1; 
                float camRotX = sin(u_time * 0.03 * u_rotationSpeed) * 0.15 + u_audioHigh * 0.1;
                mat4 camMat = rotXY(camRotX) * rotYZ(camRotY); 
                rayDirection = (camMat * vec4(rayDirection, 0.0)).xyz;
                vec3 p = rayDirection * 1.5; 
                float latticeValue = calculateLattice(p);
                vec3 color = mix(u_backgroundColor, u_primaryColor, latticeValue);
                color = mix(color, u_secondaryColor, smoothstep(0.2, 0.7, u_audioMid) * latticeValue * 0.6);
                if (abs(u_colorShift) > 0.01) \x7b 
                    vec3 hsv = rgb2hsv(color); 
                    hsv.x = fract(hsv.x + u_colorShift * 0.5 + u_audioHigh * 0.1); 
                    color = hsv2rgb(hsv); 
                \x7d
                color *= (0.8 + u_patternIntensity * 0.7);
                color = pow(clamp(color, 0.0, 1.5), vec3(0.9));
                gl_FragColor = vec4(color, 1.0);
            \x7d
        "]

/-!
Geometry and projection strategy classes and their managers
(`BaseGeometry`/`BaseProjection` subclasses are characterized by the
result of their `getShaderCode()` method; the registered instances are the
ones `_initGeometries`/`_initProjections` construct).
-/

/-- An object extending the `BaseGeometry` class, characterized by what
its `getShaderCode()` returns. -/
structure BaseGeometry where
  getShaderCode : JSStr
deriving DecidableEq

/-- An object extending the `BaseProjection` class, characterized by what
its `getShaderCode()` returns. -/
structure BaseProjection where
  getShaderCode : JSStr
deriving DecidableEq

/-- An arbitrary JavaScript value passed to `registerGeometry` /
`registerProjection`; the code only inspects it with `instanceof`. -/
inductive JSValue where
  | geometryInstance (g : BaseGeometry)
  | projectionInstance (p : BaseProjection)
  | otherValue
deriving DecidableEq

def HypercubeGeometry : BaseGeometry := ⟨hypercubeShaderCode⟩
def HypersphereGeometry : BaseGeometry := ⟨hypersphereShaderCode⟩
def HypertetrahedronGeometry : BaseGeometry := ⟨hypertetrahedronShaderCode⟩
def TorusGeometry : BaseGeometry := ⟨torusShaderCode⟩
def KleinGeometry : BaseGeometry := ⟨kleinShaderCode⟩
def FractalGeometry : BaseGeometry := ⟨fractalShaderCode⟩
def WaveGeometry : BaseGeometry := ⟨waveShaderCode⟩
def CrystalGeometry : BaseGeometry := ⟨crystalShaderCode⟩

/-- Model of `new PerspectiveProjection()` with the default `viewDistance = 2.5`. -/
def PerspectiveProjection : BaseProjection := ⟨perspectiveShaderCode⟩
def OrthographicProjection : BaseProjection := ⟨orthographicShaderCode⟩
/-- Model of `new StereographicProjection()` with the default `projectionPoleW = -1.5`. -/
def StereographicProjection : BaseProjection := ⟨stereographicShaderCode⟩

/-- Model of `GeometryManager`: options (`defaultGeometry`) and the `geometries`
dictionary. -/
structure GeometryManager where
  defaultGeometry : String
  geometries : List (String × BaseGeometry)
deriving DecidableEq

/-- Model of `GeometryManager.registerGeometry(name, instance)`: lowercases the
name; if the value is not a `BaseGeometry` instance it logs an error and
returns without storing; otherwise stores the instance under the
lowercased name. -/
def registerGeometry (m : GeometryManager) (name : String) (inst : JSValue) :
    GeometryManager :=
  let lowerCaseName := jsToLowerCase name
  match inst with
  | .geometryInstance g =>
    { m with geometries := objSet m.geometries lowerCaseName g }
  | _ => m

/-- Model of `GeometryManager.getGeometry(name)`: a falsy name (absent or the empty
string) is replaced by `options.defaultGeometry` unlowercased, a truthy
name is lowercased; a failed lookup warns and falls back to the default
geometry (lowercased). -/
def getGeometry (m : GeometryManager) (name : Option String) :
    Option BaseGeometry :=
  let lowerCaseName :=
    match name with
    | some s => if s = "" then m.defaultGeometry else jsToLowerCase s
    | none => m.defaultGeometry
  match objGet m.geometries lowerCaseName with
  | some geometry => some geometry
  | none => objGet m.geometries (jsToLowerCase m.defaultGeometry)

/-- Model of `GeometryManager.getGeometryTypes()`. -/
def getGeometryTypes (m : GeometryManager) : List String :=
  m.geometries.map Prod.fst

/-- The manager built by the `GeometryManager` constructor with default
options: `_initGeometries` registers the eight concrete geometries. -/
def initialGeometryManager : GeometryManager :=
  let m : GeometryManager := { defaultGeometry := "hypercube", geometries := [] }
  let m := registerGeometry m "hypercube" (.geometryInstance HypercubeGeometry)
  let m := registerGeometry m "hypersphere" (.geometryInstance HypersphereGeometry)
  let m := registerGeometry m "hypertetrahedron" (.geometryInstance HypertetrahedronGeometry)
  let m := registerGeometry m "torus" (.geometryInstance TorusGeometry)
  let m := registerGeometry m "klein" (.geometryInstance KleinGeometry)
  let m := registerGeometry m "fractal" (.geometryInstance FractalGeometry)
  let m := registerGeometry m "wave" (.geometryInstance WaveGeometry)
  registerGeometry m "crystal" (.geometryInstance CrystalGeometry)

/-- Model of `ProjectionManager`: options (`defaultProjection`) and the
`projections` dictionary. -/
structure ProjectionManager where
  defaultProjection : String
  projections : List (String × BaseProjection)
deriving DecidableEq

/-- Model of `ProjectionManager.registerProjection(name, instance)`: same shape as
`registerGeometry`. -/
def registerProjection (m : ProjectionManager) (name : String) (inst : JSValue) :
    ProjectionManager :=
  let lowerCaseName := jsToLowerCase name
  match inst with
  | .projectionInstance p =>
    { m with projections := objSet m.projections lowerCaseName p }
  | _ => m

/-- Model of `ProjectionManager.getProjection(name)`: same shape as `getGeometry`. -/
def getProjection (m : ProjectionManager) (name : Option String) :
    Option BaseProjection :=
  let lowerCaseName :=
    match name with
    | some s => if s = "" then m.defaultProjection else jsToLowerCase s
    | none => m.defaultProjection
  match objGet m.projections lowerCaseName with
  | some projection => some projection
  | none => objGet m.projections (jsToLowerCase m.defaultProjection)

/-- Model of `ProjectionManager.getProjectionTypes()`. -/
def getProjectionTypes (m : ProjectionManager) : List String :=
  m.projections.map Prod.fst

/-- The manager built by the `ProjectionManager` constructor with default
options: `_initProjections` registers the three concrete projections. -/
def initialProjectionManager : ProjectionManager :=
  let m : ProjectionManager := { defaultProjection := "perspective", projections := [] }
  let m := registerProjection m "perspective" (.projectionInstance PerspectiveProjection)
  let m := registerProjection m "orthographic" (.projectionInstance OrthographicProjection)
  registerProjection m "stereographic" (.projectionInstance StereographicProjection)

/-!
`ShaderManager`: shader source registry, compiled-shader cache, program
table and current program.  GPU handles are modeled as the naturals handed
out by `nextHandle`; handles of deleted programs are collected in
`deletedPrograms`.  The per-program `uniformLocations`/`attributeLocations`
caches are not modeled; where a claim depends on uniform-location lookup
the location map is an explicit parameter (see `setUniforms`).
-/

structure ShaderManager where
  shaderSources : List (String × JSStr)
  compiledShaders : List (String × Option Nat)
  programs : List (String × Option Nat)
  currentProgramName : Option String
  nextHandle : Nat
  deletedPrograms : List Nat
deriving DecidableEq

/-- Model of `options.baseVertexShaderName` after `_mergeDefaults`. -/
def baseVertexShaderName : String := "base-vertex"

/-- Model of `options.baseFragmentShaderName` after `_mergeDefaults`. -/
def baseFragmentShaderName : String := "base-fragment"

/-- The `ShaderManager` constructor: requires a WebGL context, a
`GeometryManager` and a `ProjectionManager`, throwing on a missing
argument; on success the state holds the two base templates registered by
`_initShaderTemplates`. -/
def mkShaderManager (gl : Bool) (geometryManager : Option GeometryManager)
    (projectionManager : Option ProjectionManager) :
    Except String ShaderManager :=
  if ¬gl then .error "WebGL context needed."
  else if geometryManager.isNone then .error "GeometryManager needed."
  else if projectionManager.isNone then .error "ProjectionManager needed."
  else .ok
    { shaderSources :=
        objSet (objSet [] baseVertexShaderName baseVertexShaderSource)
          baseFragmentShaderName baseFragmentShaderSource
      compiledShaders := []
      programs := []
      currentProgramName := none
      nextHandle := 0
      deletedPrograms := [] }

/-- The shader manager the `HypercubeCore` constructor builds
(`new ShaderManager(gl, geometryManager, projectionManager)`). -/
def initialShaderManager : ShaderManager :=
  { shaderSources :=
      objSet (objSet [] baseVertexShaderName baseVertexShaderSource)
        baseFragmentShaderName baseFragmentShaderSource
    compiledShaders := []
    programs := []
    currentProgramName := none
    nextHandle := 0
    deletedPrograms := [] }

/-- Model of `ShaderManager._compileShader(shaderIdentifier, source, type)`: returns
the cached entry when present; otherwise compiles (the healthy-context
model always succeeds) and caches a fresh handle. -/
def compileShader (sm : ShaderManager) (shaderIdentifier : String)
    (_source : JSStr) : Option Nat × ShaderManager :=
  match objGet sm.compiledShaders shaderIdentifier with
  | some cached => (cached, sm)
  | none =>
    let shader := sm.nextHandle
    (some shader,
      { sm with
        compiledShaders := objSet sm.compiledShaders shaderIdentifier (some shader)
        nextHandle := sm.nextHandle + 1 })

/-- Model of `ShaderManager._createProgram(programName, vertexShader, fragmentShader)`:
if a program is already stored under `programName` it is detached, deleted
and its table entries removed; then a new program is linked (always
succeeding in the healthy-context model), stored and returned. -/
def createProgram (sm : ShaderManager) (programName : String)
    (_vertexShader _fragmentShader : Nat) : Option Nat × ShaderManager :=
  let sm :=
    match objGet sm.programs programName with
    | some (some old) =>
      { sm with
        programs := objDelete sm.programs programName
        deletedPrograms := sm.deletedPrograms ++ [old] }
    | some none => { sm with programs := objDelete sm.programs programName }
    | none => sm
  let program := sm.nextHandle
  (some program,
    { sm with
      programs := objSet sm.programs programName (some program)
      nextHandle := sm.nextHandle + 1 })

/-- The geometry injection marker searched for and replaced in
`createDynamicProgram`. -/
def geometryInjectionPoint : String := "//__GEOMETRY_CODE_INJECTION_POINT__"

/-- The projection injection marker searched for and replaced in
`createDynamicProgram`. -/
def projectionInjectionPoint : String := "//__PROJECTION_CODE_INJECTION_POINT__"

/-- The injection portion of `ShaderManager.createDynamicProgram`: replace
the geometry marker, then the projection marker, in the base fragment
template; fail (return `null`) when an injection point is still present
after the substitutions. -/
def injectShaderCode (fsTemplate geomGLSL projGLSL : JSStr) : Option JSStr :=
  let fsSource := jsStrReplaceFirst fsTemplate geometryInjectionPoint geomGLSL
  let fsSource := jsStrReplaceFirst fsSource projectionInjectionPoint projGLSL
  if jsStrIncludes fsSource geometryInjectionPoint
      || jsStrIncludes fsSource projectionInjectionPoint then none
  else some fsSource

/-- Model of `ShaderManager.createDynamicProgram(programName, geometryTypeName,
projectionMethodName)`: compile the base vertex shader, fetch the geometry
and projection providers, validate that their fragments contain
`calculateLattice` / `project4Dto3D`, inject them into the base fragment
template, compile the assembled fragment under the identifier
`fragment-<geometry>-<projection>`, and link the program under
`programName`.  Every failure returns `null` (here `none`).  The trailing
`currentProgramName` maintenance of the source is included. -/
def createDynamicProgram (sm : ShaderManager) (gm : GeometryManager)
    (pm : ProjectionManager)
    (programName geometryTypeName projectionMethodName : String) :
    Option Nat × ShaderManager :=
  match objGet sm.shaderSources baseVertexShaderName with
  | none => (none, sm)
  | some vsSource =>
    let (vsOpt, sm) := compileShader sm baseVertexShaderName vsSource
    match vsOpt with
    | none => (none, sm)
    | some vs =>
      match getGeometry gm (some geometryTypeName),
            getProjection pm (some projectionMethodName) with
      | some geom, some proj =>
        let geomGLSL := geom.getShaderCode
        let projGLSL := proj.getShaderCode
        if ¬jsStrIncludes geomGLSL "calculateLattice" then (none, sm)
        else if ¬jsStrIncludes projGLSL "project4Dto3D" then (none, sm)
        else
          match objGet sm.shaderSources baseFragmentShaderName with
          | none => (none, sm)
          | some fsTemplate =>
            match injectShaderCode fsTemplate geomGLSL projGLSL with
            | none => (none, sm)
            | some fsSource =>
              let fsId :=
                "fragment-" ++ geometryTypeName ++ "-" ++ projectionMethodName
              let (fsOpt, sm) := compileShader sm fsId fsSource
              match fsOpt with
              | none => (none, sm)
              | some fs =>
                let (newProg, sm) := createProgram sm programName vs fs
                if sm.currentProgramName = some programName ∧ newProg.isNone then
                  (newProg, { sm with currentProgramName := none })
                else (newProg, sm)
      | _, _ => (none, sm)

/-- Model of `ShaderManager.useProgram(programName)` for a non-null name: activate
the stored program, or report failure (clearing `currentProgramName` when
it named the missing program). -/
def useProgram (sm : ShaderManager) (programName : String) :
    Bool × ShaderManager :=
  match objGet sm.programs programName with
  | some (some _) => (true, { sm with currentProgramName := some programName })
  | _ =>
    if sm.currentProgramName = some programName then
      (false, { sm with currentProgramName := none })
    else (false, sm)

/-!
`HypercubeCore` state (`DEFAULT_STATE` and `this.state`).  The source
accesses the numeric scalar render parameters dynamically by key
(`this.state[key]`), so they are modeled as the key-value map
`numericParams`; the remaining modeled fields are record fields.  The
scheduling bookkeeping `startTime`/`lastUpdateTime`/`deltaTime` and the
`callbacks` record are not modeled as data; `onError` invocations are
recorded in `errors`.  `contextRecoveryAttempts` starts undefined in the
source and is only ever read through `(x || 0)` and `>=`/`<` comparisons,
so it is modeled as a natural starting at `0`.
-/

/-- The JavaScript number literal `0.5` as an exact rational in normal
form (kernel-reducible, unlike the `OfScientific` elaboration). -/
def jsNum05 : ℚ := ⟨1, 2, by norm_num, by norm_num [Nat.Coprime]⟩

/-- The JavaScript number literal `0.2`. -/
def jsNum02 : ℚ := ⟨1, 5, by norm_num, by norm_num [Nat.Coprime]⟩

/-- The JavaScript number literal `0.03`. -/
def jsNum003 : ℚ := ⟨3, 100, by norm_num, by norm_num [Nat.Coprime]⟩

/-- The JavaScript number literal `0.025`. -/
def jsNum0025 : ℚ := ⟨1, 40, by norm_num, by norm_num [Nat.Coprime]⟩

/-- The JavaScript number literal `0.035`. -/
def jsNum0035 : ℚ := ⟨7, 200, by norm_num, by norm_num [Nat.Coprime]⟩

/-- The JavaScript number literal `0.8`. -/
def jsNum08 : ℚ := ⟨4, 5, by norm_num, by norm_num [Nat.Coprime]⟩

/-- The JavaScript number literal `0.05`. -/
def jsNum005 : ℚ := ⟨1, 20, by norm_num, by norm_num [Nat.Coprime]⟩

structure AudioLevels where
  bass : ℚ
  mid : ℚ
  high : ℚ
deriving DecidableEq

structure ColorScheme where
  primary : List ℚ
  secondary : List ℚ
  background : List ℚ
deriving DecidableEq

structure CoreState where
  numericParams : List (String × ℚ)
  resolution : List ℚ
  geometryType : String
  projectionMethod : String
  audioLevels : AudioLevels
  colorScheme : ColorScheme
  needsShaderUpdate : Bool
  dirtyUniforms : List String
  isRendering : Bool
  animationFrameId : Option Nat
  shaderProgramName : String
  contextRecoveryAttempts : Nat
  errors : List String
deriving DecidableEq

/-- The `DEFAULT_STATE` object (parameter defaults). -/
def DEFAULT_STATE : CoreState :=
  { numericParams :=
      [("time", 0), ("dimensions", 4), ("morphFactor", jsNum05),
       ("rotationSpeed", jsNum02), ("universeModifier", 1),
       ("patternIntensity", 1), ("gridDensity", 8),
       ("lineThickness", jsNum003), ("shellWidth", jsNum0025),
       ("tetraThickness", jsNum0035), ("glitchIntensity", 0),
       ("colorShift", 0)]
    resolution := [0, 0]
    geometryType := "hypercube"
    projectionMethod := "perspective"
    audioLevels := { bass := 0, mid := 0, high := 0 }
    colorScheme :=
      { primary := [1, jsNum02, jsNum08]
        secondary := [jsNum02, 1, 1]
        background := [jsNum005, 0, jsNum02] }
    needsShaderUpdate := false
    dirtyUniforms := []
    isRendering := false
    animationFrameId := none
    shaderProgramName := "maleficarumViz"
    contextRecoveryAttempts := 0
    errors := [] }

/-- The keys of `DEFAULT_STATE`, in declaration order (what
`for (const key in DEFAULT_STATE)` iterates over). -/
def DEFAULT_STATE_keys : List String :=
  ["startTime", "lastUpdateTime", "deltaTime", "time", "resolution",
   "geometryType", "projectionMethod", "dimensions", "morphFactor",
   "rotationSpeed", "universeModifier", "patternIntensity", "gridDensity",
   "lineThickness", "shellWidth", "tetraThickness", "glitchIntensity",
   "colorShift", "audioLevels", "colorScheme", "needsShaderUpdate",
   "_dirtyUniforms", "isRendering", "animationFrameId", "shaderProgramName",
   "callbacks"]

/-- The keys `_markAllUniformsDirty` skips. -/
def markAllUniformsDirtySkipKeys : List String :=
  ["_dirtyUniforms", "isRendering", "animationFrameId", "callbacks",
   "startTime", "lastUpdateTime", "deltaTime", "needsShaderUpdate",
   "geometryType", "projectionMethod", "shaderProgramName"]

/-- The `switch (stateKey)` table of `_markUniformDirty`: the uniform
names a state key maps to (the default branch maps to none). -/
def uniformNamesFor (stateKey : String) : List String :=
  match stateKey with
  | "time" => ["u_time"]
  | "resolution" => ["u_resolution"]
  | "dimensions" => ["u_dimension"]
  | "morphFactor" => ["u_morphFactor"]
  | "rotationSpeed" => ["u_rotationSpeed"]
  | "universeModifier" => ["u_universeModifier"]
  | "patternIntensity" => ["u_patternIntensity"]
  | "gridDensity" => ["u_gridDensity"]
  | "lineThickness" => ["u_lineThickness"]
  | "shellWidth" => ["u_shellWidth"]
  | "tetraThickness" => ["u_tetraThickness"]
  | "glitchIntensity" => ["u_glitchIntensity"]
  | "colorShift" => ["u_colorShift"]
  | "audioLevels" => ["u_audioBass", "u_audioMid", "u_audioHigh"]
  | "colorScheme" => ["u_primaryColor", "u_secondaryColor", "u_backgroundColor"]
  | _ => []

/-- Model of `HypercubeCore._markUniformDirty(stateKey)`. -/
def markUniformDirty (st : CoreState) (stateKey : String) : CoreState :=
  { st with dirtyUniforms := (uniformNamesFor stateKey).foldl setAdd st.dirtyUniforms }

/-- The set `_markAllUniformsDirty` builds: every `DEFAULT_STATE` key not
in the skip list, mapped through the `_markUniformDirty` table, starting
from a fresh empty set. -/
def allRenderUniforms : List String :=
  ((DEFAULT_STATE_keys.filter
      (fun k => ¬markAllUniformsDirtySkipKeys.contains k)).flatMap
    uniformNamesFor).foldl setAdd []

/-- Model of `HypercubeCore._markAllUniformsDirty()`. -/
def markAllUniformsDirty (st : CoreState) : CoreState :=
  { st with dirtyUniforms := allRenderUniforms }

/-!
`HypercubeCore.updateParameters(newParams)`.  An update map is a list of
(key, value) entries.  Values carry their JavaScript type; partial
`audioLevels`/`colorScheme` objects are canonical records of optional
fields in declaration order.  Keys not handled by a match arm — unknown
keys, and writes whose value type does not match the field — fall through
to the catch-all arm and are ignored, as `hasOwnProperty` filtering does
in the source.  The scheduling bookkeeping keys are outside the modeled
update map (presentation layers pass parameter maps).
-/

inductive ParamValue where
  | num (q : ℚ)
  | vec (l : List ℚ)
  | str (s : String)
  | audio (bass mid high : Option ℚ)
  | colors (primary secondary background : Option (List ℚ))
deriving DecidableEq

/-- One iteration of the `for (const key in newParams)` loop of
`updateParameters`.  The accumulator carries the state and the local
`shaderNeedsUpdate` flag.  Dispatch is on the JavaScript type of the
incoming value (the source branches on `typeof oldValue`) and then on the
key.  A numeric write to a key outside the parameter store (no
`hasOwnProperty`) is ignored, as are unknown keys of the other types.
The scalar branches compare by `JSON.stringify` (value equality for the
stored numbers, arrays and strings) and, only when different, assign and
mark the key's uniforms dirty; a changed `geometryType` or
`projectionMethod` additionally raises the local `shaderNeedsUpdate`
flag. -/
def applyParamUpdate (acc : CoreState × Bool) (entry : String × ParamValue) :
    CoreState × Bool :=
  let (st, shaderNeedsUpdate) := acc
  let (key, v) := entry
  match v with
  | .num q =>
    match objGet st.numericParams key with
    | none => (st, shaderNeedsUpdate)
    | some oldValue =>
      if oldValue = q then (st, shaderNeedsUpdate)
      else
        (markUniformDirty { st with numericParams := objSet st.numericParams key q }
          key, shaderNeedsUpdate)
  | .vec l =>
    if key = "resolution" then
      if st.resolution = l then (st, shaderNeedsUpdate)
      else (markUniformDirty { st with resolution := l } key, shaderNeedsUpdate)
    else (st, shaderNeedsUpdate)
  | .str strv =>
    if key = "geometryType" then
      if st.geometryType = strv then (st, shaderNeedsUpdate)
      else (markUniformDirty { st with geometryType := strv } key, true)
    else if key = "projectionMethod" then
      if st.projectionMethod = strv then (st, shaderNeedsUpdate)
      else (markUniformDirty { st with projectionMethod := strv } key, true)
    else (st, shaderNeedsUpdate)
  | .audio bass mid high =>
    if key = "audioLevels" then
      if bass = some st.audioLevels.bass ∧ mid = some st.audioLevels.mid
          ∧ high = some st.audioLevels.high then
        (st, shaderNeedsUpdate)
      else
        let st1 :=
          { st with
            audioLevels :=
              { bass := bass.getD st.audioLevels.bass
                mid := mid.getD st.audioLevels.mid
                high := high.getD st.audioLevels.high } }
        let st2 := if bass.isSome then markUniformDirty st1 "audioLevels.bass" else st1
        let st3 := if mid.isSome then markUniformDirty st2 "audioLevels.mid" else st2
        let st4 := if high.isSome then markUniformDirty st3 "audioLevels.high" else st3
        (st4, shaderNeedsUpdate)
    else (st, shaderNeedsUpdate)
  | .colors primary secondary background =>
    if key = "colorScheme" then
      if primary = some st.colorScheme.primary
          ∧ secondary = some st.colorScheme.secondary
          ∧ background = some st.colorScheme.background then
        (st, shaderNeedsUpdate)
      else
        let st1 :=
          { st with
            colorScheme :=
              { primary := primary.getD st.colorScheme.primary
                secondary := secondary.getD st.colorScheme.secondary
                background := background.getD st.colorScheme.background } }
        let st2 :=
          if primary.isSome then markUniformDirty st1 "colorScheme.primary" else st1
        let st3 :=
          if secondary.isSome then markUniformDirty st2 "colorScheme.secondary" else st2
        let st4 :=
          if background.isSome then markUniformDirty st3 "colorScheme.background" else st3
        (st4, shaderNeedsUpdate)
    else (st, shaderNeedsUpdate)

/-- Model of `HypercubeCore.updateParameters(newParams)`. -/
def updateParameters (st : CoreState) (newParams : List (String × ParamValue)) :
    CoreState :=
  let result := newParams.foldl applyParamUpdate (st, false)
  if result.2 then { result.1 with needsShaderUpdate := true } else result.1

/-- The current value stored under a state key, as an update-map value
(objects in canonical full form).  Keys outside the modeled parameter
store have no current value. -/
def currentParamValue (st : CoreState) (key : String) : Option ParamValue :=
  match key with
  | "resolution" => some (.vec st.resolution)
  | "geometryType" => some (.str st.geometryType)
  | "projectionMethod" => some (.str st.projectionMethod)
  | "audioLevels" =>
    some (.audio (some st.audioLevels.bass) (some st.audioLevels.mid)
      (some st.audioLevels.high))
  | "colorScheme" =>
    some (.colors (some st.colorScheme.primary) (some st.colorScheme.secondary)
      (some st.colorScheme.background))
  | _ => (objGet st.numericParams key).map ParamValue.num

/-- Reading a numeric parameter back from the store (`this.state[key]`,
as `getStatus`/`_setUniforms` read it: the stored value, untransformed). -/
def readNumericParam (st : CoreState) (key : String) : Option ℚ :=
  objGet st.numericParams key

/-!
Per-frame uniform flush, stop, recovery, and the per-tick shader update.
-/

/-- One step of the `dirty.forEach` loop of `HypercubeCore._setUniforms`,
building `uniformsToRetry`: `u_time` is skipped; a name whose uniform
location resolves is uploaded; a name whose location is `null` is added to
the retry set. -/
def setUniformsRetryStep (loc : String → Option Nat) (uniformsToRetry : List String)
    (name : String) : List String :=
  if name = "u_time" then uniformsToRetry
  else
    match loc name with
    | some _ => uniformsToRetry
    | none => setAdd uniformsToRetry name

/-- Model of `HypercubeCore._setUniforms()`: when the current program is usable,
walk the dirty set building `uniformsToRetry` and store it as the new
dirty set (`this.state._dirtyUniforms = uniformsToRetry`); otherwise
return with the dirty set untouched.  `programReady` models the
`useProgram`/`currentProgramName` guard, `loc` models
`shaderManager.getUniformLocation` under the current program. -/
def setUniforms (st : CoreState) (programReady : Bool)
    (loc : String → Option Nat) : CoreState :=
  if ¬programReady then st
  else { st with dirtyUniforms := st.dirtyUniforms.foldl (setUniformsRetryStep loc) [] }

/-- Model of `HypercubeCore.stop()`. -/
def stop (st : CoreState) : CoreState :=
  if ¬st.isRendering then st
  else { st with isRendering := false, animationFrameId := none }

/-- Model of `HypercubeCore._updateShaderIfNeeded()`: when `needsShaderUpdate` is
set, ask `createDynamicProgram` for the program; on failure report
`Shader update failed` through `onError` and stop; on success clear
`needsShaderUpdate`, activate the program and mark every uniform dirty.
Returns the success flag together with the new core and shader-manager
states. -/
def updateShaderIfNeeded (core : CoreState) (sm : ShaderManager)
    (gm : GeometryManager) (pm : ProjectionManager) :
    Bool × CoreState × ShaderManager :=
  if ¬core.needsShaderUpdate then (true, core, sm)
  else
    let (programOpt, sm) :=
      createDynamicProgram sm gm pm core.shaderProgramName core.geometryType
        core.projectionMethod
    match programOpt with
    | none =>
      let core := { core with errors := core.errors ++ ["Shader update failed"] }
      (false, stop core, sm)
    | some _ =>
      let core := { core with needsShaderUpdate := false }
      let (_, sm) := useProgram sm core.shaderProgramName
      (true, markAllUniformsDirty core, sm)

/-- The dirty set the context-recovery success branch would install
(the literal array at the `this.state._dirtyUniforms = new Set([...])`
assignment inside `_attemptContextRecovery`). -/
def recoveryDirtyUniforms : List String :=
  ["u_resolution", "u_time", "u_dimension", "u_morphFactor",
   "u_rotationSpeed", "u_universeModifier", "u_patternIntensity",
   "u_gridDensity", "u_lineThickness", "u_shellWidth",
   "u_tetraThickness", "u_glitchIntensity", "u_colorShift",
   "u_audioBass", "u_audioMid", "u_audioHigh", "u_primaryColor"]

/-- The `catch` branch of the recovery `setTimeout` body: below the retry
ceiling another attempt is scheduled (the state is returned for it);
otherwise stop and surface the permanent failure through `onError`. -/
def recoveryCatch (st : CoreState) : CoreState :=
  if st.contextRecoveryAttempts < 3 then st
  else
    let st := stop st
    { st with errors := st.errors ++ ["WebGL context recovery failed permanently"] }

/-- The `setTimeout` body of `_attemptContextRecovery`.  `contextOk` says
whether `canvas.getContext` hands back a non-lost context.  When it does,
the code runs `new ShaderManager(this.gl)` — without the mandatory
`GeometryManager`/`ProjectionManager` arguments, so the constructor throws
`GeometryManager needed.` and control reaches the `catch` branch; the
subsequent statements of the success branch (`setupShaderPrograms()`,
which is not even a `ShaderManager` method, the `recoveryDirtyUniforms`
assignment, the attempt-counter reset and the conditional resume) are
modeled faithfully but are unreachable. -/
def recoveryTimeoutBody (st : CoreState) (contextOk : Bool) : CoreState :=
  if contextOk then
    match mkShaderManager true none none with
    | .ok _ =>
      let st :=
        { st with
          dirtyUniforms := recoveryDirtyUniforms
          contextRecoveryAttempts := 0 }
      if st.isRendering then { st with animationFrameId := some 0 } else st
    | .error _ => recoveryCatch st
  else recoveryCatch st

/-- Model of `HypercubeCore._attemptContextRecovery()`: at or above the ceiling of
3 attempts, stop and surface `WebGL context permanently lost`; otherwise
count the attempt, cancel the scheduled frame and run the backoff body. -/
def attemptContextRecovery (st : CoreState) (contextOk : Bool) : CoreState :=
  if st.contextRecoveryAttempts ≥ 3 then
    let st := stop st
    { st with errors := st.errors ++ ["WebGL context permanently lost"] }
  else
    let st :=
      { st with
        contextRecoveryAttempts := st.contextRecoveryAttempts + 1
        animationFrameId := none }
    recoveryTimeoutBody st contextOk

/-- The read-only snapshot `HypercubeCore.getStatus()` returns. -/
structure Status where
  geometry : String
  projection : String
  isAnimating : Bool
  availableGeometries : List String
  availableProjections : List String
  time : ℚ
  resolution : List ℚ
deriving DecidableEq

/-- Model of `HypercubeCore.getStatus()`. -/
def getStatus (st : CoreState) (gm : GeometryManager) (pm : ProjectionManager) :
    Status :=
  { geometry := st.geometryType
    projection := st.projectionMethod
    isAnimating := st.isRendering
    availableGeometries := getGeometryTypes gm
    availableProjections := getProjectionTypes pm
    time := (objGet st.numericParams "time").getD 0
    resolution := st.resolution }

/-- A core that has started its render loop (`start()` ran, a frame is
scheduled) with the default parameters and strategy pair. -/
def runningCore : CoreState :=
  { DEFAULT_STATE with isRendering := true, animationFrameId := some 2 }

/-!
Concrete scenario states used by the claim theorems.
-/

/-- The state after `updateParameters({ geometryType: "unregistered_name" })`
on a running core (the `setStrategy` scenario of the spec). -/
def coreAfterUnregisteredName : CoreState :=
  updateParameters runningCore [("geometryType", ParamValue.str "unregistered_name")]

/-- The next tick's recompilation after selecting the unregistered
geometry name. -/
def tickAfterUnregisteredName : Bool × CoreState × ShaderManager :=
  updateShaderIfNeeded coreAfterUnregisteredName initialShaderManager
    initialGeometryManager initialProjectionManager

/-- First compilation tick of a `(hypercube, perspective)` core. -/
def switchTick1 : Bool × CoreState × ShaderManager :=
  updateShaderIfNeeded { runningCore with needsShaderUpdate := true }
    initialShaderManager initialGeometryManager initialProjectionManager

/-- Tick after switching the geometry strategy to `hypersphere`. -/
def switchTick2 : Bool × CoreState × ShaderManager :=
  updateShaderIfNeeded
    (updateParameters switchTick1.2.1 [("geometryType", ParamValue.str "hypersphere")])
    switchTick1.2.2 initialGeometryManager initialProjectionManager

/-- Tick after switching the geometry strategy back to `hypercube`. -/
def switchTick3 : Bool × CoreState × ShaderManager :=
  updateShaderIfNeeded
    (updateParameters switchTick2.2.1 [("geometryType", ParamValue.str "hypercube")])
    switchTick2.2.2 initialGeometryManager initialProjectionManager

/-- A `BaseGeometry` instance whose fragment contains neither
`calculateLattice` nor `densityField`. -/
def badFragmentGeometry : BaseGeometry :=
  ⟨["float latticeless(vec3 p) \x7b return 0.0; \x7d"]⟩

/-- The registry after registering the fragment-less geometry under
`badfragment`. -/
def managerWithBadFragment : GeometryManager :=
  registerGeometry initialGeometryManager "badfragment"
    (.geometryInstance badFragmentGeometry)

/-- A fragment-shader template containing neither injection point. -/
def templateWithoutInjectionPoints : JSStr :=
  ["precision highp float; void main() \x7b gl_FragColor = vec4(1.0); \x7d"]

/-- The state reached from a running core by three recovery attempts in
which the context is reacquired successfully every time (`contextOk`). -/
def recoveryAfterSuccessfulReacquisitions : CoreState :=
  (fun s => attemptContextRecovery s true)^[3] runningCore

/-- The state reached from a running core by three recovery attempts in
which context reacquisition fails every time. -/
def recoveryAfterFailedReacquisitions : CoreState :=
  (fun s => attemptContextRecovery s false)^[3] runningCore

/-!
Helper lemmas.
-/

theorem toNat_ofNat_valid (n : Nat) (h : n.isValidChar) :
    (Char.ofNat n).toNat = n := by
  simp [Char.ofNat, h, Char.ofNatAux, Char.toNat, UInt32.ofNat', UInt32.toNat,
    BitVec.toNat_ofNatLt]

theorem jsCharToLower_idem (c : Char) :
    jsCharToLower (jsCharToLower c) = jsCharToLower c := by
  unfold jsCharToLower
  split
  · rename_i h
    have hv : (c.toNat + 32).isValidChar := by
      unfold Nat.isValidChar
      omega
    have ht : (Char.ofNat (c.toNat + 32)).toNat = c.toNat + 32 :=
      toNat_ofNat_valid _ hv
    rw [if_neg]
    rw [ht]
    omega
  · rfl

theorem jsToLowerCase_idem (s : String) :
    jsToLowerCase (jsToLowerCase s) = jsToLowerCase s := by
  unfold jsToLowerCase
  have hdata : (String.mk (s.data.map jsCharToLower)).data
      = s.data.map jsCharToLower := rfl
  rw [hdata, List.map_map]
  congr 1
  exact List.map_congr_left (fun a _ => jsCharToLower_idem a)

theorem jsToLowerCase_empty_iff (s : String) :
    jsToLowerCase s = "" ↔ s = "" := by
  constructor
  · intro h
    have hdata : s.data.map jsCharToLower = ("" : String).data :=
      congrArg String.data h
    have hnil : s.data = [] := by
      have : s.data.map jsCharToLower = [] := hdata
      simpa using this
    cases s
    simp_all
  · intro h
    subst h
    rfl

theorem objGet_objSet_self {α : Type} (l : List (String × α)) (k : String) (v : α) :
    objGet (objSet l k v) k = some v := by
  induction l with
  | nil => simp [objSet, objGet]
  | cons hd tl ih =>
    obtain ⟨k', v'⟩ := hd
    by_cases h : k' = k
    · subst h
      simp [objSet, objGet]
    · simp [objSet, objGet, h, ih]

theorem mem_setAdd (l : List String) (x n : String) :
    n ∈ setAdd l x ↔ n ∈ l ∨ n = x := by
  unfold setAdd
  split
  · rename_i h
    constructor
    · exact Or.inl
    · rintro (h2 | rfl)
      · exact h2
      · exact h
  · simp

theorem mem_foldl_setUniformsRetryStep (loc : String → Option Nat)
    (dirty : List String) (acc : List String) (n : String) :
    n ∈ dirty.foldl (setUniformsRetryStep loc) acc ↔
      n ∈ acc ∨ (n ∈ dirty ∧ n ≠ "u_time" ∧ loc n = none) := by
  induction dirty generalizing acc with
  | nil => simp
  | cons d rest ih =>
    rw [List.foldl_cons, ih]
    unfold setUniformsRetryStep
    by_cases hd : d = "u_time"
    · subst hd
      simp only [if_pos rfl, List.mem_cons]
      constructor
      · rintro (h | h)
        · exact Or.inl h
        · exact Or.inr ⟨Or.inr h.1, h.2⟩
      · rintro (h | ⟨(rfl | hmem), hne, hloc⟩)
        · exact Or.inl h
        · exact absurd rfl hne
        · exact Or.inr ⟨hmem, hne, hloc⟩
    · rw [if_neg hd]
      cases hl : loc d with
      | some v =>
        simp only [List.mem_cons]
        constructor
        · rintro (h | h)
          · exact Or.inl h
          · exact Or.inr ⟨Or.inr h.1, h.2⟩
        · rintro (h | ⟨(rfl | hmem), hne, hloc⟩)
          · exact Or.inl h
          · rw [hl] at hloc
            exact absurd hloc (by simp)
          · exact Or.inr ⟨hmem, hne, hloc⟩
      | none =>
        simp only [List.mem_cons, mem_setAdd]
        constructor
        · rintro ((h | rfl) | h)
          · exact Or.inl h
          · exact Or.inr ⟨Or.inl rfl, hd, hl⟩
          · exact Or.inr ⟨Or.inr h.1, h.2⟩
        · rintro (h | ⟨(rfl | hmem), hne, hloc⟩)
          · exact Or.inl (Or.inl h)
          · exact Or.inl (Or.inr rfl)
          · exact Or.inr ⟨hmem, hne, hloc⟩

theorem jsStrReplaceFirst_of_not_includes (s : JSStr) (pat : String) (rep : JSStr)
    (h : jsStrIncludes s pat = false) : jsStrReplaceFirst s pat rep = s := by
  induction s with
  | nil => rfl
  | cons seg rest ih =>
    unfold jsStrIncludes at h
    simp only [List.any_cons, Bool.or_eq_false_iff] at h
    unfold jsStrReplaceFirst
    rw [if_neg (by simp_all), ih h.2]

theorem markUniformDirty_preserves (st : CoreState) (k : String) :
    (markUniformDirty st k).isRendering = st.isRendering
    ∧ (markUniformDirty st k).errors = st.errors
    ∧ (markUniformDirty st k).animationFrameId = st.animationFrameId
    ∧ (markUniformDirty st k).contextRecoveryAttempts
        = st.contextRecoveryAttempts := by
  simp [markUniformDirty]

theorem applyParamUpdate_preserves (acc : CoreState × Bool)
    (entry : String × ParamValue) :
    (applyParamUpdate acc entry).1.isRendering = acc.1.isRendering
    ∧ (applyParamUpdate acc entry).1.errors = acc.1.errors
    ∧ (applyParamUpdate acc entry).1.animationFrameId = acc.1.animationFrameId
    ∧ (applyParamUpdate acc entry).1.contextRecoveryAttempts
        = acc.1.contextRecoveryAttempts := by
  obtain ⟨st, flag⟩ := acc
  obtain ⟨key, v⟩ := entry
  refine ⟨?_, ?_, ?_, ?_⟩ <;>
  · unfold applyParamUpdate
    cases v <;> dsimp only <;> (repeat' split) <;> rfl

theorem updateParameters_preserves (st : CoreState)
    (ps : List (String × ParamValue)) :
    (updateParameters st ps).isRendering = st.isRendering
    ∧ (updateParameters st ps).errors = st.errors
    ∧ (updateParameters st ps).animationFrameId = st.animationFrameId
    ∧ (updateParameters st ps).contextRecoveryAttempts
        = st.contextRecoveryAttempts := by
  have key : ∀ (acc : CoreState × Bool),
      (ps.foldl applyParamUpdate acc).1.isRendering = acc.1.isRendering
      ∧ (ps.foldl applyParamUpdate acc).1.errors = acc.1.errors
      ∧ (ps.foldl applyParamUpdate acc).1.animationFrameId = acc.1.animationFrameId
      ∧ (ps.foldl applyParamUpdate acc).1.contextRecoveryAttempts
          = acc.1.contextRecoveryAttempts := by
    induction ps with
    | nil => intro acc; simp
    | cons p rest ih =>
      intro acc
      rw [List.foldl_cons]
      have h1 := applyParamUpdate_preserves acc p
      have h2 := ih (applyParamUpdate acc p)
      exact ⟨h2.1.trans h1.1, h2.2.1.trans h1.2.1, h2.2.2.1.trans h1.2.2.1,
        h2.2.2.2.trans h1.2.2.2⟩
  have hk := key (st, false)
  unfold updateParameters
  dsimp only
  by_cases h : (List.foldl applyParamUpdate (st, false) ps).2 = true <;>
    simp only [h, if_true, Bool.false_eq_true, if_false] <;>
    exact ⟨hk.1, hk.2.1, hk.2.2.1, hk.2.2.2⟩

theorem stop_attempts (st : CoreState) :
    (stop st).contextRecoveryAttempts = st.contextRecoveryAttempts := by
  unfold stop
  split <;> rfl

theorem attemptContextRecovery_attempts_le (st : CoreState) (b : Bool)
    (h : st.contextRecoveryAttempts ≤ 3) :
    (attemptContextRecovery st b).contextRecoveryAttempts ≤ 3 := by
  unfold attemptContextRecovery recoveryTimeoutBody recoveryCatch stop
  repeat' split
  all_goals try simp_all
  all_goals try (repeat' split)
  all_goals try simp_all
  all_goals omega

theorem foldl_attemptContextRecovery_attempts_le (outcomes : List Bool)
    (st : CoreState) (h : st.contextRecoveryAttempts ≤ 3) :
    (outcomes.foldl attemptContextRecovery st).contextRecoveryAttempts ≤ 3 := by
  induction outcomes generalizing st with
  | nil => exact h
  | cons b rest ih =>
    rw [List.foldl_cons]
    exact ih _ (attemptContextRecovery_attempts_le st b h)

/-!
Claim theorems.
-/

/-- C1: the claim says a successful context reacquisition during recovery
returns a previously running core to `Running` with the dirty set equal to
the full set of declared render parameters.  In the code the success
branch is unreachable: it constructs `new ShaderManager(this.gl)` without
the mandatory manager arguments, so the constructor throws
`GeometryManager needed.` and the attempt lands in the `catch`; after the
retry ceiling a core whose context is reacquired successfully every time
is nevertheless stopped with the fatal `recovery failed permanently`
error, its dirty set untouched.  Moreover the dirty set the success
branch would install lists only 17 uniforms, omitting `u_secondaryColor`
and `u_backgroundColor` from the 19 uniforms `_markAllUniformsDirty`
declares, so even if reached it would not equal the full parameter set. -/
theorem contextRecovery_success_path_unreachable :
    mkShaderManager true none none = Except.error "GeometryManager needed."
    ∧ recoveryAfterSuccessfulReacquisitions.isRendering = false
    ∧ "WebGL context recovery failed permanently"
        ∈ recoveryAfterSuccessfulReacquisitions.errors
    ∧ recoveryAfterSuccessfulReacquisitions.contextRecoveryAttempts = 3
    ∧ recoveryAfterSuccessfulReacquisitions.dirtyUniforms = []
    ∧ allRenderUniforms.length = 19
    ∧ recoveryDirtyUniforms.length = 17
    ∧ "u_secondaryColor" ∈ allRenderUniforms
    ∧ "u_secondaryColor" ∉ recoveryDirtyUniforms
    ∧ "u_backgroundColor" ∈ allRenderUniforms
    ∧ "u_backgroundColor" ∉ recoveryDirtyUniforms := by
  refine ⟨rfl, by decide, by decide, by decide, by decide, by decide, by decide,
    by decide, by decide, by decide, by decide⟩

/-- C2 counterexample: looking up the unregistered name does not fail —
it returns the default geometry's definition — and after
`setStrategy({ geometry: "unregistered_name" })` the next tick's
recompilation succeeds, delivers no error to `onError`, and the core
keeps running. -/
theorem unknownStrategy_lookup_falls_back_counterexample :
    getGeometry initialGeometryManager (some "unregistered_name")
      = some HypercubeGeometry
    ∧ objGet initialGeometryManager.geometries "unregistered_name" = none
    ∧ tickAfterUnregisteredName.1 = true
    ∧ tickAfterUnregisteredName.2.1.errors = []
    ∧ (getStatus tickAfterUnregisteredName.2.1 initialGeometryManager
        initialProjectionManager).isAnimating = true := by
  exact ⟨rfl, rfl, rfl, rfl, rfl⟩

/-- C2: lookup of an unregistered strategy name does not fail with an
error: `getGeometry` warns and falls back to the configured default
strategy.  Consequently, after setting the geometry strategy to an
unregistered name, the next tick's recompilation uses the default
geometry and succeeds, no error reaches `onError`, and the core keeps
running (`getStatus().isAnimating` stays `true`). -/
theorem unknownStrategy_fallback_keeps_core_running :
    (∀ (m : GeometryManager) (n : String), n ≠ "" →
        objGet m.geometries (jsToLowerCase n) = none →
        getGeometry m (some n)
          = objGet m.geometries (jsToLowerCase m.defaultGeometry))
    ∧ tickAfterUnregisteredName.1 = true
    ∧ tickAfterUnregisteredName.2.1.isRendering = true
    ∧ tickAfterUnregisteredName.2.1.errors = []
    ∧ tickAfterUnregisteredName.2.1.needsShaderUpdate = false
    ∧ (getStatus tickAfterUnregisteredName.2.1 initialGeometryManager
        initialProjectionManager).isAnimating = true := by
  refine ⟨?_, rfl, rfl, rfl, rfl, rfl⟩
  intro m n hn hnone
  simp [getGeometry, hn, hnone]

/-- C2 witness: the fallback theorem applied at the concrete unregistered
name. -/
theorem unknownStrategy_fallback_keeps_core_running_witness :
    getGeometry initialGeometryManager (some "unregistered_name")
      = objGet initialGeometryManager.geometries
          (jsToLowerCase initialGeometryManager.defaultGeometry) :=
  unknownStrategy_fallback_keeps_core_running.1 initialGeometryManager
    "unregistered_name" (by decide) (by rfl)

/-- C3 counterexample: `updateParameters` performs no clamping — writing
`gridDensity := -5` stores `-5` verbatim, a negative value outside every
valid range for a grid density (the default is `8`; the shader floors the
density it derives from this value at `0.1`), and marks the uniform
dirty. -/
theorem updateParameters_no_clamp_counterexample :
    objGet (updateParameters DEFAULT_STATE
        [("gridDensity", ParamValue.num (-5))]).numericParams "gridDensity"
      = some (-5)
    ∧ objGet DEFAULT_STATE.numericParams "gridDensity" = some 8
    ∧ ((-5 : ℚ) < 0)
    ∧ "u_gridDensity" ∈ (updateParameters DEFAULT_STATE
        [("gridDensity", ParamValue.num (-5))]).dirtyUniforms := by
  refine ⟨by decide, by decide, by decide, by decide⟩

/-- C3: every numeric parameter write with a known key stores the written
value verbatim — no clamping to any range happens on write, and reading
the parameter back returns exactly the value written. -/
theorem updateParameters_stores_value_verbatim (st : CoreState) (key : String)
    (q : ℚ) (h : (objGet st.numericParams key).isSome) :
    objGet (updateParameters st [(key, ParamValue.num q)]).numericParams key
      = some q := by
  obtain ⟨oldValue, hog⟩ := Option.isSome_iff_exists.mp h
  by_cases heq : oldValue = q
  · have happ : applyParamUpdate (st, false) (key, ParamValue.num q)
        = (st, false) := by
      simp [applyParamUpdate, hog, heq]
    unfold updateParameters
    rw [List.foldl_cons, List.foldl_nil, happ]
    simpa [hog] using heq
  · have happ : applyParamUpdate (st, false) (key, ParamValue.num q)
        = (markUniformDirty
            { st with numericParams := objSet st.numericParams key q } key,
          false) := by
      simp [applyParamUpdate, hog, heq]
    unfold updateParameters
    rw [List.foldl_cons, List.foldl_nil, happ]
    simpa [markUniformDirty] using objGet_objSet_self st.numericParams key q

/-- C3 witness: the verbatim-store theorem applied at the concrete
out-of-range write. -/
theorem updateParameters_stores_value_verbatim_witness :
    objGet (updateParameters DEFAULT_STATE
        [("gridDensity", ParamValue.num (-5))]).numericParams "gridDensity"
      = some (-5) :=
  updateParameters_stores_value_verbatim DEFAULT_STATE "gridDensity" (-5)
    (by decide)

/-- C4: writing a parameter to a value equal to its currently stored
value is a complete no-op: the state — in particular the stored value and
the dirty set — is unchanged. -/
theorem noop_write_leaves_state_unchanged (st : CoreState) (key : String)
    (v : ParamValue) (h : currentParamValue st key = some v) :
    updateParameters st [(key, v)] = st := by
  have happ : applyParamUpdate (st, false) (key, v) = (st, false) := by
    unfold currentParamValue at h
    split at h <;>
      first
      | (obtain rfl := Option.some.inj h
         simp [applyParamUpdate])
      | (obtain ⟨oldValue, hog, rfl⟩ :
            ∃ a, objGet st.numericParams key = some a ∧ ParamValue.num a = v := by
            simpa [Option.map_eq_some'] using h
         simp [applyParamUpdate, hog])
  unfold updateParameters
  rw [List.foldl_cons, List.foldl_nil, happ]
  rfl

/-- C4 witness: the no-op write theorem applied at a concrete write of the
default grid density. -/
theorem noop_write_leaves_state_unchanged_witness :
    updateParameters DEFAULT_STATE [("gridDensity", ParamValue.num 8)]
      = DEFAULT_STATE :=
  noop_write_leaves_state_unchanged DEFAULT_STATE "gridDensity"
    (ParamValue.num 8) (by decide)

/-- C5 counterexample: a dirty parameter whose uniform slot cannot be
resolved is kept in the dirty set for the next frame, not dropped, so the
dirty set after the flush is not empty. -/
theorem setUniforms_retains_unresolved_counterexample :
    (setUniforms { DEFAULT_STATE with dirtyUniforms := ["u_gridDensity"] }
        true (fun _ => none)).dirtyUniforms = ["u_gridDensity"]
    ∧ ["u_gridDensity"] ≠ ([] : List String) := by
  refine ⟨by decide, by decide⟩

/-- C5: after a flush with a usable program, the dirty set consists of
exactly the previously dirty uniforms (apart from `u_time`) whose GPU
slots did not resolve — unresolved uniforms are retained for retry in
later frames, and the dirty set is empty only when every dirty uniform's
slot resolved. -/
theorem setUniforms_dirty_set_iff (st : CoreState) (loc : String → Option Nat)
    (n : String) :
    n ∈ (setUniforms st true loc).dirtyUniforms ↔
      n ∈ st.dirtyUniforms ∧ n ≠ "u_time" ∧ loc n = none := by
  unfold setUniforms
  rw [if_neg (by simp)]
  rw [show ({ st with
      dirtyUniforms :=
        st.dirtyUniforms.foldl (setUniformsRetryStep loc) [] } : CoreState).dirtyUniforms
    = st.dirtyUniforms.foldl (setUniformsRetryStep loc) [] from rfl]
  rw [mem_foldl_setUniformsRetryStep]
  simp

/-- C6: over any sequence of recovery attempts the attempt counter never
exceeds the ceiling of 3; after three failed reacquisitions the core is
stopped with the fatal `recovery failed permanently` error surfaced
through `onError` (and a further attempt surfaces `permanently lost`
without retrying); in that terminal state every `updateParameters` call
is accepted — it is a total state update that leaves the core stopped
with no frame scheduled, so it has no GPU effect and cannot crash. -/
theorem recovery_attempts_bounded_and_failure_terminal :
    (∀ (outcomes : List Bool) (st : CoreState),
        st.contextRecoveryAttempts ≤ 3 →
        (outcomes.foldl attemptContextRecovery st).contextRecoveryAttempts ≤ 3)
    ∧ recoveryAfterFailedReacquisitions.isRendering = false
    ∧ recoveryAfterFailedReacquisitions.contextRecoveryAttempts = 3
    ∧ "WebGL context recovery failed permanently"
        ∈ recoveryAfterFailedReacquisitions.errors
    ∧ (attemptContextRecovery recoveryAfterFailedReacquisitions false).isRendering
        = false
    ∧ "WebGL context permanently lost"
        ∈ (attemptContextRecovery recoveryAfterFailedReacquisitions false).errors
    ∧ (∀ updates : List (String × ParamValue),
        (updateParameters recoveryAfterFailedReacquisitions updates).isRendering
            = false
        ∧ (updateParameters recoveryAfterFailedReacquisitions updates).errors
            = recoveryAfterFailedReacquisitions.errors
        ∧ (updateParameters recoveryAfterFailedReacquisitions
            updates).animationFrameId = none) := by
  refine ⟨foldl_attemptContextRecovery_attempts_le, by decide, by decide,
    by decide, by decide, by decide, ?_⟩
  intro updates
  have hp := updateParameters_preserves recoveryAfterFailedReacquisitions updates
  refine ⟨?_, hp.2.1, ?_⟩
  · rw [hp.1]
    decide
  · rw [hp.2.2.1]
    decide

/-- C6 witness: the attempt bound applied to a concrete run of four
failed attempts from a freshly started core. -/
theorem recovery_attempts_bounded_and_failure_terminal_witness :
    (([false, false, false, false].foldl attemptContextRecovery
        runningCore).contextRecoveryAttempts ≤ 3) :=
  recovery_attempts_bounded_and_failure_terminal.1
    [false, false, false, false] runningCore (by decide)

/-- C7 counterexample: registering a `BaseGeometry` instance whose
fragment contains neither `calculateLattice` nor `densityField` succeeds
and mutates the registry — registration does not validate the fragment
text. -/
theorem registerGeometry_accepts_missing_required_function :
    objGet managerWithBadFragment.geometries "badfragment"
      = some badFragmentGeometry
    ∧ objGet initialGeometryManager.geometries "badfragment" = none
    ∧ jsStrIncludes badFragmentGeometry.getShaderCode "calculateLattice" = false
    ∧ jsStrIncludes badFragmentGeometry.getShaderCode "densityField" = false := by
  exact ⟨rfl, rfl, rfl, rfl⟩

/-- C7: registration validates only that the value is an instance of the
strategy base class — a non-instance is rejected without mutating the
registry, but the fragment text is not inspected.  The required-function
check (`calculateLattice` for geometry, `project4Dto3D` for projection —
not `densityField`/`reduceDimension`) happens later, in
`createDynamicProgram`, which aborts (returns `null`) when the selected
geometry's fragment lacks the function. -/
theorem registration_checks_instance_not_fragment :
    (∀ (m : GeometryManager) (name : String) (g : BaseGeometry),
        objGet (registerGeometry m name (.geometryInstance g)).geometries
          (jsToLowerCase name) = some g)
    ∧ (∀ (m : GeometryManager) (name : String),
        registerGeometry m name .otherValue = m)
    ∧ (∀ (m : ProjectionManager) (name : String),
        registerProjection m name .otherValue = m)
    ∧ (createDynamicProgram initialShaderManager managerWithBadFragment
        initialProjectionManager "maleficarumViz" "badfragment"
        "perspective").1 = none := by
  refine ⟨?_, ?_, ?_, rfl⟩
  · intro m name g
    simp only [registerGeometry]
    exact objGet_objSet_self m.geometries (jsToLowerCase name) g
  · intro m name
    rfl
  · intro m name
    rfl

/-- C8 counterexample: a base template containing neither injection point
passes composition — substitution is a no-op and the post-substitution
check finds no leftover marker, so no `InjectionError`-like failure
occurs for an absent injection point. -/
theorem injection_missing_marker_passes_counterexample :
    jsStrIncludes templateWithoutInjectionPoints geometryInjectionPoint = false
    ∧ jsStrIncludes templateWithoutInjectionPoints projectionInjectionPoint = false
    ∧ injectShaderCode templateWithoutInjectionPoints hypercubeShaderCode
        perspectiveShaderCode = some templateWithoutInjectionPoints := by
  exact ⟨rfl, rfl, rfl⟩

/-- C8: composition checks only that no injection marker remains in the
assembled source after substitution.  A template from which a marker is
absent is not rejected — replacement is a no-op and validation passes —
while any marker still present after substitution does abort
composition. -/
theorem injection_checks_only_leftover_markers :
    (∀ fsTemplate geomGLSL projGLSL : JSStr,
        jsStrIncludes fsTemplate geometryInjectionPoint = false →
        jsStrIncludes fsTemplate projectionInjectionPoint = false →
        injectShaderCode fsTemplate geomGLSL projGLSL = some fsTemplate)
    ∧ (∀ fsTemplate geomGLSL projGLSL assembled : JSStr,
        injectShaderCode fsTemplate geomGLSL projGLSL = some assembled →
        jsStrIncludes assembled geometryInjectionPoint = false
        ∧ jsStrIncludes assembled projectionInjectionPoint = false) := by
  constructor
  · intro t g p hg hp
    unfold injectShaderCode
    dsimp only
    rw [jsStrReplaceFirst_of_not_includes t geometryInjectionPoint g hg,
      jsStrReplaceFirst_of_not_includes t projectionInjectionPoint p hp]
    simp [hg, hp]
  · intro t g p assembled h
    unfold injectShaderCode at h
    dsimp only at h
    split at h
    · exact absurd h (by simp)
    · rename_i hcond
      obtain rfl := Option.some.inj h
      constructor
      · revert hcond
        cases jsStrIncludes
          (jsStrReplaceFirst (jsStrReplaceFirst t geometryInjectionPoint g)
            projectionInjectionPoint p) geometryInjectionPoint <;> simp
      · revert hcond
        cases jsStrIncludes
          (jsStrReplaceFirst (jsStrReplaceFirst t geometryInjectionPoint g)
            projectionInjectionPoint p) projectionInjectionPoint <;> simp

/-- C8 witness: the no-absence-check theorem applied to the concrete
marker-free template. -/
theorem injection_checks_only_leftover_markers_witness :
    injectShaderCode templateWithoutInjectionPoints hypercubeShaderCode
      perspectiveShaderCode = some templateWithoutInjectionPoints :=
  injection_checks_only_leftover_markers.1 templateWithoutInjectionPoints
    hypercubeShaderCode perspectiveShaderCode rfl rfl

/-- C9 counterexample: the core builds every program under the single name
`maleficarumViz`, so switching `(hypercube, perspective)` to
`(hypersphere, perspective)` deletes program handle `2` and links handle
`4`; switching back deletes `4` and links the fresh handle `5` instead of
reusing handle `2`, which stays deleted.  Only the compiled fragment
stage `fragment-hypercube-perspective` (handle `1`) is reused from the
cache. -/
theorem strategy_switch_destroys_previous_program :
    objGet switchTick1.2.2.programs "maleficarumViz" = some (some 2)
    ∧ switchTick2.2.2.deletedPrograms = [2]
    ∧ objGet switchTick2.2.2.programs "maleficarumViz" = some (some 4)
    ∧ objGet switchTick3.2.2.programs "maleficarumViz" = some (some 5)
    ∧ switchTick3.2.2.deletedPrograms = [2, 4]
    ∧ objGet switchTick3.2.2.compiledShaders "fragment-hypercube-perspective"
        = objGet switchTick1.2.2.compiledShaders "fragment-hypercube-perspective"
    ∧ objGet switchTick1.2.2.compiledShaders "fragment-hypercube-perspective"
        = some (some 1) := by
  exact ⟨rfl, rfl, rfl, rfl, rfl, rfl, rfl⟩

/-- C9: linked programs are keyed by the caller-supplied program name, not
by the `(geometry, projection)` pair — rebuilding under an existing name
deletes the stored program and links a fresh handle; only compiled shader
stages are cached by the pair-derived identifier and reused on
switch-back. -/
theorem program_cache_keyed_by_program_name (sm : ShaderManager)
    (programName : String) (vs fs old : Nat)
    (h : objGet sm.programs programName = some (some old)) :
    old ∈ (createProgram sm programName vs fs).2.deletedPrograms
    ∧ (createProgram sm programName vs fs).1 = some sm.nextHandle
    ∧ objGet (createProgram sm programName vs fs).2.programs programName
        = some (some sm.nextHandle) := by
  unfold createProgram
  rw [h]
  refine ⟨by simp, rfl, ?_⟩
  exact objGet_objSet_self _ programName (some sm.nextHandle)

/-- C9 witness: the deletion behavior applied at the concrete state after
the first compilation, where program handle `2` is stored under
`maleficarumViz`. -/
theorem program_cache_keyed_by_program_name_witness :
    (2 : Nat) ∈ (createProgram switchTick1.2.2 "maleficarumViz"
      0 3).2.deletedPrograms :=
  (program_cache_keyed_by_program_name switchTick1.2.2 "maleficarumViz"
    0 3 2 (by rfl)).1

/-- C10: strategy lookup in both registries is case-insensitive —
registration stores under the lowercased name, lookup lowercases its
argument, and `get(n)` agrees with `get(lowercase(n))` for every name. -/
theorem strategy_lookup_case_insensitive :
    (∀ (m : GeometryManager) (n : String),
        getGeometry m (some n) = getGeometry m (some (jsToLowerCase n)))
    ∧ (∀ (m : ProjectionManager) (n : String),
        getProjection m (some n) = getProjection m (some (jsToLowerCase n)))
    ∧ (∀ (m : GeometryManager) (name : String) (g : BaseGeometry),
        objGet (registerGeometry m name (.geometryInstance g)).geometries
          (jsToLowerCase name) = some g)
    ∧ (∀ (m : ProjectionManager) (name : String) (p : BaseProjection),
        objGet (registerProjection m name (.projectionInstance p)).projections
          (jsToLowerCase name) = some p) := by
  refine ⟨?_, ?_, ?_, ?_⟩
  · intro m n
    by_cases hn : n = ""
    · subst hn
      rfl
    · have hne : jsToLowerCase n ≠ "" :=
        fun hc => hn ((jsToLowerCase_empty_iff n).mp hc)
      simp [getGeometry, hn, hne, jsToLowerCase_idem]
  · intro m n
    by_cases hn : n = ""
    · subst hn
      rfl
    · have hne : jsToLowerCase n ≠ "" :=
        fun hc => hn ((jsToLowerCase_empty_iff n).mp hc)
      simp [getProjection, hn, hne, jsToLowerCase_idem]
  · intro m name g
    simp only [registerGeometry]
    exact objGet_objSet_self m.geometries (jsToLowerCase name) g
  · intro m name p
    simp only [registerProjection]
    exact objGet_objSet_self m.projections (jsToLowerCase name) p
